import Mathlib

/-!
Shallow embedding of the `polar-rs` client library (`src/lib.rs`, `src/enums.rs`).

The library is an HTTP client for the Polar REST API.  The embedding models:

* URLs as a structure holding the scheme/authority part and the path
  (the only components the library inspects); parsing (`reqwest::IntoUrl`)
  and joining (`url::Url::join`) are external-crate operations, so request
  methods take them as explicit function parameters, except that the RFC 3986
  relative-reference merge used by `join` on plain relative paths is also
  modelled concretely (`Url.joinRel`) for the claims about path building;
* the network as a function from the outgoing request to a server outcome
  (either a transport error, which `reqwest` surfaces as `reqwest::Error`,
  or an HTTP response with a status code and a body text);
* JSON (de)serialization of the generic body types as explicit
  encode/decode function parameters;
* a Rust panic (the `unwrap()` on `response.json()`) as the `panicked`
  constructor of `RunResult`, distinct from returning a `PolarResult`.

Each request method also returns the list of HTTP requests it dispatched, so
that round-trip counting claims can be stated.  `Uuid` values only ever
appear via their `Display` form inside paths, so they are modelled as strings.
-/

/-- Model of `url::Url`: the scheme plus authority (never inspected by the
library, kept opaque as a string) and the path component. -/
structure Url where
  scheme_host : String
  path : String
deriving DecidableEq, Repr

/-- `PolarError` from `src/lib.rs`. -/
inductive PolarError where
  | NotFound
  | Request (msg : String)
  | Unauthorized
  | Unknown (msg : String)
  | Validation (msg : String)
deriving DecidableEq, Repr

/-- `PolarResult<T> = Result<T, PolarError>`. -/
abbrev PolarResult (T : Type) := Except PolarError T

/-- The `Polar` client struct: a base URL and an access token. -/
structure Polar where
  base_url : Url
  access_token : String
deriving DecidableEq, Repr

/-- HTTP method of an outgoing request. -/
inductive Method where
  | GET
  | POST
  | PATCH
  | DELETE
deriving DecidableEq, Repr

/-- An outgoing HTTP request as the library builds it with the `reqwest`
builder: method, resolved URL, the bearer-auth token attached by
`.bearer_auth(...)`, and the serialized JSON body attached by `.json(...)`
(absent for GET and DELETE). -/
structure Request where
  method : Method
  url : Url
  bearer_auth : Option String
  body : Option String
deriving DecidableEq, Repr

/-- What the network produces for a dispatched request: a transport-level
failure (a `reqwest::Error`, carried as its display string) or an HTTP
response. -/
structure HttpResponse where
  status : Nat
  body : String
deriving DecidableEq, Repr

inductive ServerOutcome where
  | transportError (msg : String)
  | response (r : HttpResponse)
deriving DecidableEq, Repr

/-- Result of running one of the async request methods: either the method
returns a `PolarResult`, or it panics (the `unwrap()` on `response.json()`
when a success body fails to deserialize). -/
inductive RunResult (T : Type) where
  | panicked
  | returns (r : PolarResult T)
deriving Repr

/-- Builds the request the `reqwest` chain `.method(url).bearer_auth(token)`
(plus `.json(params)` for POST/PATCH) assembles. -/
def mkReq (m : Method) (u : Url) (tok : String) (b : Option String) : Request :=
  { method := m, url := u, bearer_auth := some tok, body := b }

/-- Rust `str::ends_with('/')` on a path, as used by `Polar::new`. -/
def endsWithChar (s : String) (c : Char) : Bool :=
  s.data.reverse.head? == some c

/-- `Polar::new` (`src/lib.rs` lines 60-79): reject an empty access token,
then parse the base URL (`reqwest::IntoUrl::into_url`, abstracted as the
`parse` parameter), appending a trailing slash to its path when missing.
Construction performs no network interaction: the definition takes no server
parameter at all. -/
def Polar.new (parse : String → Option Url) (base_url : String)
    (access_token : String) : PolarResult Polar :=
  if access_token = "" then
    .error (.Request "access_token cannot be empty")
  else
    match parse base_url with
    | some url =>
      let url := if endsWithChar url.path '/' then url
                 else { url with path := url.path ++ "/" }
      .ok { base_url := url, access_token := access_token }
    | none => .error (.Request "base_url is not a valid URL")

/-- `Polar::delete` (lines 81-98).  `join` models `url::Url::join` (its error
string is what `From<url::ParseError>` wraps into `PolarError::Request`);
`decode` models `response.json::<T>()`; `server` is the network.  The second
component is the list of requests actually dispatched. -/
def Polar.delete (join : Url → String → Except String Url)
    (decode : String → Option T) (server : Request → ServerOutcome)
    (self : Polar) (path : String) : RunResult T × List Request :=
  match join self.base_url path with
  | .error e => (.returns (.error (.Request e)), [])
  | .ok u =>
    match server (mkReq .DELETE u self.access_token none) with
    | .transportError e =>
      (.returns (.error (.Request e)), [mkReq .DELETE u self.access_token none])
    | .response r =>
      if r.status = 200 then
        match decode r.body with
        | some v => (.returns (.ok v), [mkReq .DELETE u self.access_token none])
        | none => (.panicked, [mkReq .DELETE u self.access_token none])
      else if r.status = 404 then
        (.returns (.error .NotFound), [mkReq .DELETE u self.access_token none])
      else if r.status = 422 then
        (.returns (.error (.Validation r.body)), [mkReq .DELETE u self.access_token none])
      else if r.status = 401 then
        (.returns (.error .Unauthorized), [mkReq .DELETE u self.access_token none])
      else (.returns (.error (.Unknown r.body)), [mkReq .DELETE u self.access_token none])

/-- `Polar::get` (lines 100-117). -/
def Polar.get (join : Url → String → Except String Url)
    (decode : String → Option T) (server : Request → ServerOutcome)
    (self : Polar) (path : String) : RunResult T × List Request :=
  match join self.base_url path with
  | .error e => (.returns (.error (.Request e)), [])
  | .ok u =>
    match server (mkReq .GET u self.access_token none) with
    | .transportError e =>
      (.returns (.error (.Request e)), [mkReq .GET u self.access_token none])
    | .response r =>
      if r.status = 200 then
        match decode r.body with
        | some v => (.returns (.ok v), [mkReq .GET u self.access_token none])
        | none => (.panicked, [mkReq .GET u self.access_token none])
      else if r.status = 404 then
        (.returns (.error .NotFound), [mkReq .GET u self.access_token none])
      else if r.status = 422 then
        (.returns (.error (.Validation r.body)), [mkReq .GET u self.access_token none])
      else if r.status = 401 then
        (.returns (.error .Unauthorized), [mkReq .GET u self.access_token none])
      else (.returns (.error (.Unknown r.body)), [mkReq .GET u self.access_token none])

/-- `Polar::patch` (lines 119-138); `encode` models `serde_json`
serialization of the `params` argument attached by `.json(params)`. -/
def Polar.patch (join : Url → String → Except String Url)
    (encode : P → String) (decode : String → Option T)
    (server : Request → ServerOutcome)
    (self : Polar) (path : String) (params : P) : RunResult T × List Request :=
  match join self.base_url path with
  | .error e => (.returns (.error (.Request e)), [])
  | .ok u =>
    match server (mkReq .PATCH u self.access_token (some (encode params))) with
    | .transportError e =>
      (.returns (.error (.Request e)),
       [mkReq .PATCH u self.access_token (some (encode params))])
    | .response r =>
      if r.status = 200 then
        match decode r.body with
        | some v =>
          (.returns (.ok v), [mkReq .PATCH u self.access_token (some (encode params))])
        | none =>
          (.panicked, [mkReq .PATCH u self.access_token (some (encode params))])
      else if r.status = 404 then
        (.returns (.error .NotFound),
         [mkReq .PATCH u self.access_token (some (encode params))])
      else if r.status = 422 then
        (.returns (.error (.Validation r.body)),
         [mkReq .PATCH u self.access_token (some (encode params))])
      else if r.status = 401 then
        (.returns (.error .Unauthorized),
         [mkReq .PATCH u self.access_token (some (encode params))])
      else
        (.returns (.error (.Unknown r.body)),
         [mkReq .PATCH u self.access_token (some (encode params))])

/-- `Polar::post` (lines 140-158): success status is 201 Created and there is
no 404 arm. -/
def Polar.post (join : Url → String → Except String Url)
    (encode : P → String) (decode : String → Option T)
    (server : Request → ServerOutcome)
    (self : Polar) (path : String) (params : P) : RunResult T × List Request :=
  match join self.base_url path with
  | .error e => (.returns (.error (.Request e)), [])
  | .ok u =>
    match server (mkReq .POST u self.access_token (some (encode params))) with
    | .transportError e =>
      (.returns (.error (.Request e)),
       [mkReq .POST u self.access_token (some (encode params))])
    | .response r =>
      if r.status = 201 then
        match decode r.body with
        | some v =>
          (.returns (.ok v), [mkReq .POST u self.access_token (some (encode params))])
        | none =>
          (.panicked, [mkReq .POST u self.access_token (some (encode params))])
      else if r.status = 422 then
        (.returns (.error (.Validation r.body)),
         [mkReq .POST u self.access_token (some (encode params))])
      else if r.status = 401 then
        (.returns (.error .Unauthorized),
         [mkReq .POST u self.access_token (some (encode params))])
      else
        (.returns (.error (.Unknown r.body)),
         [mkReq .POST u self.access_token (some (encode params))])

/-- `Polar::create_checkout_session` (line 165-167): POST to `checkouts`. -/
def Polar.create_checkout_session (join : Url → String → Except String Url)
    (encode : P → String) (decode : String → Option T)
    (server : Request → ServerOutcome)
    (self : Polar) (params : P) : RunResult T × List Request :=
  Polar.post join encode decode server self "checkouts" params

/-- `Polar::get_checkout_session` (line 174-176): GET to `checkouts/` ++ the
id rendered by `Display` (the `id` argument is the rendered `Uuid`). -/
def Polar.get_checkout_session (join : Url → String → Except String Url)
    (decode : String → Option T) (server : Request → ServerOutcome)
    (self : Polar) (id : String) : RunResult T × List Request :=
  Polar.get join decode server self ("checkouts/" ++ id)

/-- `Polar::update_subscription` (line 183-185): PATCH to `subscriptions/` ++ id. -/
def Polar.update_subscription (join : Url → String → Except String Url)
    (encode : P → String) (decode : String → Option T)
    (server : Request → ServerOutcome)
    (self : Polar) (id : String) (params : P) : RunResult T × List Request :=
  Polar.patch join encode decode server self ("subscriptions/" ++ id) params

/-- `Polar::revoke_subscription` (line 192-194): DELETE to `subscriptions/` ++ id. -/
def Polar.revoke_subscription (join : Url → String → Except String Url)
    (decode : String → Option T) (server : Request → ServerOutcome)
    (self : Polar) (id : String) : RunResult T × List Request :=
  Polar.delete join decode server self ("subscriptions/" ++ id)

/-! Method inventory of `impl Polar` (`src/lib.rs` lines 59-195): the four
generic HTTP-verb methods each dispatch a request directly via
`reqwest::Client`, and the four endpoint helpers each dispatch exactly by
delegating to one generic method.  `new` is the only other method and sends
nothing. -/

/-- The methods of `impl Polar` that build and send an HTTP request
themselves (each contains the `reqwest::Client::new()...send()` chain). -/
def directRequestMethods : List String :=
  ["delete", "get", "patch", "post"]

/-- The endpoint helper methods; each call sends a request by delegating to
one of the direct methods. -/
def endpointHelperMethods : List String :=
  ["create_checkout_session", "get_checkout_session",
   "update_subscription", "revoke_subscription"]

/-- All methods of `Polar` whose invocation results in an HTTP request. -/
def requestSendingMethods : List String :=
  directRequestMethods ++ endpointHelperMethods

/-! Sorting enumerations from `src/enums.rs` and their serde serialization.
Both enums derive `Serialize` with `rename_all = "snake_case"` and explicit
`rename` attributes on the descending variants; `serialize` is the string
each variant serializes to under those attributes. -/

/-- `CheckoutSessionsSorting` (`src/enums.rs` lines 31-43). -/
inductive CheckoutSessionsSorting where
  | CreatedAt
  | CreatedAtDesc
  | ExpiresAt
  | ExpiresAtDesc
  | Status
  | StatusDesc
deriving DecidableEq, Repr

def CheckoutSessionsSorting.serialize : CheckoutSessionsSorting → String
  | .CreatedAt => "created_at"
  | .CreatedAtDesc => "-created_at"
  | .ExpiresAt => "expires_at"
  | .ExpiresAtDesc => "-expires_at"
  | .Status => "status"
  | .StatusDesc => "-status"

/-- `ProductsSorting` (`src/enums.rs` lines 142-154). -/
inductive ProductsSorting where
  | CreatedAt
  | CreatedAtDesc
  | ExpiresAt
  | ExpiresAtDesc
  | Status
  | StatusDesc
deriving DecidableEq, Repr

def ProductsSorting.serialize : ProductsSorting → String
  | .CreatedAt => "created_at"
  | .CreatedAtDesc => "-created_at"
  | .ExpiresAt => "expires_at"
  | .ExpiresAtDesc => "-expires_at"
  | .Status => "status"
  | .StatusDesc => "-status"

/-! Model of `url::Url::join` on a plain relative path reference (the only
shape the library ever joins: `checkouts`, `checkouts/` ++ id,
`subscriptions/` ++ id).  Per RFC 3986 section 5.3, the scheme and authority
are taken from the base and the path is the merge of the base path with the
reference: everything after the right-most slash of the base path is dropped
and the reference is appended. -/

/-- Keeps a character list up to and including its last slash (empty when it
has no slash). -/
def dropAfterLastSlash (cs : List Char) : List Char :=
  (cs.reverse.dropWhile (fun c => c != '/')).reverse

/-- RFC 3986 path merge for a base with an authority component. -/
def mergePaths (basePath rel : String) : String :=
  ⟨dropAfterLastSlash basePath.data ++ rel.data⟩

/-- `url::Url::join` on a relative path reference. -/
def Url.joinRel (base : Url) (rel : String) : Url :=
  { base with path := mergePaths base.path rel }

/-! Shared concrete values used to instantiate the abstract parse/join/
network/serde parameters when evaluating the theorems on concrete inputs. -/

def sampleUrl : Url :=
  { scheme_host := "https://sandbox-api.polar.sh", path := "/v1/" }

def samplePolar : Polar := { base_url := sampleUrl, access_token := "123" }

def sampleParse : String → Option Url := fun s =>
  if s = "https://sandbox-api.polar.sh/v1/" then some sampleUrl else none

def sampleJoin : Url → String → Except String Url := fun b rel =>
  .ok (Url.joinRel b rel)

def failJoin : Url → String → Except String Url := fun _ _ =>
  .error "relative URL with a cannot-be-a-base base"

def sampleDecodeNat : String → Option Nat := fun s =>
  if s = "7" then some 7 else none

def sampleEncodeNat : Nat → String := fun n => toString n

def serverRespond (r : HttpResponse) : Request → ServerOutcome := fun _ =>
  .response r

def serverFail (msg : String) : Request → ServerOutcome := fun _ =>
  .transportError msg

/-! Helper lemmas about the path-slash bookkeeping. -/

theorem dropAfterLastSlash_of_last_slash (cs : List Char)
    (h : cs.reverse.head? = some '/') : dropAfterLastSlash cs = cs := by
  unfold dropAfterLastSlash
  cases hrev : cs.reverse with
  | nil => rw [hrev] at h; simp at h
  | cons a t =>
    rw [hrev] at h
    simp only [List.head?_cons, Option.some.injEq] at h
    subst h
    rw [List.dropWhile_cons_of_neg (by simp)]
    rw [← hrev, List.reverse_reverse]

theorem endsWithChar_iff (s : String) (c : Char) :
    endsWithChar s c = true ↔ s.data.reverse.head? = some c := by
  simp [endsWithChar]

theorem endsWithChar_append_slash (p : String) :
    endsWithChar (p ++ "/") '/' = true := by
  rw [endsWithChar_iff]
  have hdata : (p ++ "/").data = p.data ++ ['/'] := by
    simp [String.data_append]
  rw [hdata, List.reverse_append]
  simp

theorem mergePaths_of_trailing_slash (p rel : String)
    (h : endsWithChar p '/' = true) : mergePaths p rel = p ++ rel := by
  rw [endsWithChar_iff] at h
  unfold mergePaths
  rw [dropAfterLastSlash_of_last_slash p.data h]
  apply String.ext
  simp [String.data_append]

/-! Shared helper lemmas: the list of requests each method dispatches is
determined by the join result alone, and a successful `Polar.new` is
inverted into its stored fields. -/

theorem get_requests_eq (join : Url → String → Except String Url)
    (decode : String → Option T) (server : Request → ServerOutcome)
    (self : Polar) (path : String) :
    (Polar.get join decode server self path).2
      = match join self.base_url path with
        | .error _ => []
        | .ok u => [mkReq .GET u self.access_token none] := by
  unfold Polar.get
  split
  · rfl
  · split
    · rfl
    · split
      · split <;> rfl
      · split
        · rfl
        · split
          · rfl
          · split <;> rfl

theorem delete_requests_eq (join : Url → String → Except String Url)
    (decode : String → Option T) (server : Request → ServerOutcome)
    (self : Polar) (path : String) :
    (Polar.delete join decode server self path).2
      = match join self.base_url path with
        | .error _ => []
        | .ok u => [mkReq .DELETE u self.access_token none] := by
  unfold Polar.delete
  split
  · rfl
  · split
    · rfl
    · split
      · split <;> rfl
      · split
        · rfl
        · split
          · rfl
          · split <;> rfl

theorem patch_requests_eq (join : Url → String → Except String Url)
    (encode : P → String) (decode : String → Option T)
    (server : Request → ServerOutcome)
    (self : Polar) (path : String) (params : P) :
    (Polar.patch join encode decode server self path params).2
      = match join self.base_url path with
        | .error _ => []
        | .ok u => [mkReq .PATCH u self.access_token (some (encode params))] := by
  unfold Polar.patch
  split
  · rfl
  · split
    · rfl
    · split
      · split <;> rfl
      · split
        · rfl
        · split
          · rfl
          · split <;> rfl

theorem post_requests_eq (join : Url → String → Except String Url)
    (encode : P → String) (decode : String → Option T)
    (server : Request → ServerOutcome)
    (self : Polar) (path : String) (params : P) :
    (Polar.post join encode decode server self path params).2
      = match join self.base_url path with
        | .error _ => []
        | .ok u => [mkReq .POST u self.access_token (some (encode params))] := by
  unfold Polar.post
  split
  · rfl
  · split
    · rfl
    · split
      · split <;> rfl
      · split
        · rfl
        · split <;> rfl

theorem new_ok_inv (parse : String → Option Url) (base tok : String) (c : Polar)
    (hnew : Polar.new parse base tok = .ok c) :
    tok ≠ "" ∧ ∃ u, parse base = some u ∧ c.access_token = tok ∧
      c.base_url = (if endsWithChar u.path '/' then u
                    else { u with path := u.path ++ "/" }) := by
  by_cases htok : tok = ""
  · subst htok; simp [Polar.new] at hnew
  · cases hp : parse base with
    | none => simp [Polar.new, htok, hp] at hnew
    | some u =>
      simp only [Polar.new, htok, hp, if_false, Except.ok.injEq, reduceIte] at hnew
      subst hnew
      exact ⟨htok, u, rfl, rfl, rfl⟩

/-- C7 (counterexample): the claim that `Polar` has exactly five
request-sending methods is false: `impl Polar` has four generic
request-sending methods and four endpoint helpers that each send a request
by delegation, so neither the direct count (4) nor the total count (8)
is five. -/
theorem C7_counterexample :
    ¬(requestSendingMethods.length = 5 ∨ directRequestMethods.length = 5) := by
  decide

/-- C7 (amended): the `Polar` wrapper has four generic request-sending
methods (`delete`, `get`, `patch`, `post`) and four endpoint helpers that
send a request by delegating to them, eight request-sending methods in
total. -/
theorem C7_method_count :
    directRequestMethods.length = 4 ∧ endpointHelperMethods.length = 4
      ∧ requestSendingMethods.length = 8 := by
  decide

/-- C8: every variant of `CheckoutSessionsSorting` and `ProductsSorting`
serializes to the snake_case criterion name, and each descending variant
serializes to the ascending variant's name prefixed with a minus sign. -/
theorem C8_sorting_serialization :
    (CheckoutSessionsSorting.serialize .CreatedAt = "created_at"
      ∧ CheckoutSessionsSorting.serialize .ExpiresAt = "expires_at"
      ∧ CheckoutSessionsSorting.serialize .Status = "status"
      ∧ CheckoutSessionsSorting.serialize .CreatedAtDesc = "-created_at"
      ∧ CheckoutSessionsSorting.serialize .ExpiresAtDesc = "-expires_at"
      ∧ CheckoutSessionsSorting.serialize .StatusDesc = "-status"
      ∧ CheckoutSessionsSorting.serialize .CreatedAtDesc
          = "-" ++ CheckoutSessionsSorting.serialize .CreatedAt
      ∧ CheckoutSessionsSorting.serialize .ExpiresAtDesc
          = "-" ++ CheckoutSessionsSorting.serialize .ExpiresAt
      ∧ CheckoutSessionsSorting.serialize .StatusDesc
          = "-" ++ CheckoutSessionsSorting.serialize .Status)
    ∧ (ProductsSorting.serialize .CreatedAt = "created_at"
      ∧ ProductsSorting.serialize .ExpiresAt = "expires_at"
      ∧ ProductsSorting.serialize .Status = "status"
      ∧ ProductsSorting.serialize .CreatedAtDesc = "-created_at"
      ∧ ProductsSorting.serialize .ExpiresAtDesc = "-expires_at"
      ∧ ProductsSorting.serialize .StatusDesc = "-status"
      ∧ ProductsSorting.serialize .CreatedAtDesc
          = "-" ++ ProductsSorting.serialize .CreatedAt
      ∧ ProductsSorting.serialize .ExpiresAtDesc
          = "-" ++ ProductsSorting.serialize .ExpiresAt
      ∧ ProductsSorting.serialize .StatusDesc
          = "-" ++ ProductsSorting.serialize .Status) := by
  decide

/-- C9: `Polar::new` rejects an empty access token (for every base URL and
every parse behavior) with `Request("access_token cannot be empty")`,
rejects an unparseable base URL for a non-empty token with
`Request("base_url is not a valid URL")`, and otherwise returns `Ok` storing
the token and the parsed URL (with its path's trailing slash ensured);
by construction `Polar.new` takes no network parameter, so it sends
nothing. -/
theorem C9_new_validation (parse : String → Option Url) (base tok : String)
    (u : Url) (hne : tok ≠ "") :
    Polar.new parse base "" = .error (.Request "access_token cannot be empty")
    ∧ (parse base = none →
        Polar.new parse base tok = .error (.Request "base_url is not a valid URL"))
    ∧ (parse base = some u →
        Polar.new parse base tok =
          .ok { base_url := if endsWithChar u.path '/' then u
                            else { u with path := u.path ++ "/" },
                access_token := tok }) := by
  refine ⟨by simp [Polar.new], fun hp => by simp [Polar.new, hne, hp],
    fun hp => by simp [Polar.new, hne, hp]⟩

/-- C9 witness: concrete evaluations of the three behaviors of
`Polar.new`. -/
theorem C9_new_validation_witness :
    ("123" : String) ≠ ""
    ∧ Polar.new sampleParse "https://sandbox-api.polar.sh/v1/" ""
        = .error (.Request "access_token cannot be empty")
    ∧ Polar.new sampleParse "not a url" "123"
        = .error (.Request "base_url is not a valid URL")
    ∧ Polar.new sampleParse "https://sandbox-api.polar.sh/v1/" "123"
        = .ok samplePolar := by
  have h1 := C9_new_validation sampleParse "https://sandbox-api.polar.sh/v1/" "123"
    sampleUrl (by decide)
  have h2 := C9_new_validation sampleParse "not a url" "123" sampleUrl (by decide)
  refine ⟨by decide, h1.1, h2.2.1 (by decide), ?_⟩
  rw [h1.2.2 (by decide)]
  rfl

/-- C10: every client produced by `Polar::new` stores a base URL whose path
ends in a slash, and therefore joining any relative reference (such as
`checkouts/` ++ id) appends it to the base path instead of replacing the
final segment.  The embedding's request methods take the client immutably
and return no updated client, mirroring the `&self` receivers: no operation
can modify the stored `base_url` or `access_token`. -/
theorem C10_trailing_slash (parse : String → Option Url) (base tok : String)
    (c : Polar) (hnew : Polar.new parse base tok = .ok c) :
    endsWithChar c.base_url.path '/' = true
    ∧ ∀ rel, Url.joinRel c.base_url rel
        = { c.base_url with path := c.base_url.path ++ rel } := by
  obtain ⟨htok, u, hp, hacc, hurl⟩ := new_ok_inv parse base tok c hnew
  have hslash : endsWithChar c.base_url.path '/' = true := by
    rw [hurl]
    by_cases h : endsWithChar u.path '/' = true
    · simp [h]
    · simpa [h] using endsWithChar_append_slash u.path
  refine ⟨hslash, fun rel => ?_⟩
  unfold Url.joinRel
  rw [mergePaths_of_trailing_slash c.base_url.path rel hslash]

/-- C10 witness: a concretely constructed client has a slash-terminated base
path and joining a concrete relative path appends it. -/
theorem C10_trailing_slash_witness :
    Polar.new sampleParse "https://sandbox-api.polar.sh/v1/" "123" = .ok samplePolar
    ∧ endsWithChar samplePolar.base_url.path '/' = true
    ∧ Url.joinRel samplePolar.base_url "checkouts/abc"
        = { samplePolar.base_url with
            path := samplePolar.base_url.path ++ "checkouts/abc" } := by
  have hnew : Polar.new sampleParse "https://sandbox-api.polar.sh/v1/" "123"
      = .ok samplePolar := by rfl
  have h := C10_trailing_slash sampleParse "https://sandbox-api.polar.sh/v1/" "123"
    samplePolar hnew
  exact ⟨hnew, h.1, h.2 "checkouts/abc"⟩

/-- C1: for `get`, `patch`, and `delete`, once the path joins against the
base URL and the server answers with a response, a 200 response whose body
deserializes yields `Ok` of the decoded value, 404 yields
`Err(NotFound)`, 422 yields `Err(Validation(body))`, 401 yields
`Err(Unauthorized)`, and every other status yields
`Err(Unknown(body))`. -/
theorem C1_status_taxonomy (join : Url → String → Except String Url)
    (encode : P → String) (decode : String → Option T)
    (server : Request → ServerOutcome) (self : Polar) (path : String)
    (params : P) (u : Url) (r : HttpResponse)
    (hj : join self.base_url path = .ok u) :
    (server (mkReq .GET u self.access_token none) = .response r →
      ((∀ v, r.status = 200 → decode r.body = some v →
          (Polar.get join decode server self path).1 = .returns (.ok v))
        ∧ (r.status = 404 →
          (Polar.get join decode server self path).1
            = .returns (.error .NotFound))
        ∧ (r.status = 422 →
          (Polar.get join decode server self path).1
            = .returns (.error (.Validation r.body)))
        ∧ (r.status = 401 →
          (Polar.get join decode server self path).1
            = .returns (.error .Unauthorized))
        ∧ (r.status ≠ 200 → r.status ≠ 404 → r.status ≠ 422 → r.status ≠ 401 →
          (Polar.get join decode server self path).1
            = .returns (.error (.Unknown r.body)))))
    ∧ (server (mkReq .PATCH u self.access_token (some (encode params)))
          = .response r →
      ((∀ v, r.status = 200 → decode r.body = some v →
          (Polar.patch join encode decode server self path params).1
            = .returns (.ok v))
        ∧ (r.status = 404 →
          (Polar.patch join encode decode server self path params).1
            = .returns (.error .NotFound))
        ∧ (r.status = 422 →
          (Polar.patch join encode decode server self path params).1
            = .returns (.error (.Validation r.body)))
        ∧ (r.status = 401 →
          (Polar.patch join encode decode server self path params).1
            = .returns (.error .Unauthorized))
        ∧ (r.status ≠ 200 → r.status ≠ 404 → r.status ≠ 422 → r.status ≠ 401 →
          (Polar.patch join encode decode server self path params).1
            = .returns (.error (.Unknown r.body)))))
    ∧ (server (mkReq .DELETE u self.access_token none) = .response r →
      ((∀ v, r.status = 200 → decode r.body = some v →
          (Polar.delete join decode server self path).1 = .returns (.ok v))
        ∧ (r.status = 404 →
          (Polar.delete join decode server self path).1
            = .returns (.error .NotFound))
        ∧ (r.status = 422 →
          (Polar.delete join decode server self path).1
            = .returns (.error (.Validation r.body)))
        ∧ (r.status = 401 →
          (Polar.delete join decode server self path).1
            = .returns (.error .Unauthorized))
        ∧ (r.status ≠ 200 → r.status ≠ 404 → r.status ≠ 422 → r.status ≠ 401 →
          (Polar.delete join decode server self path).1
            = .returns (.error (.Unknown r.body))))) := by
  refine ⟨?_, ?_, ?_⟩ <;> intro hs <;>
    refine ⟨fun v h1 h2 => ?_, fun h1 => ?_, fun h1 => ?_, fun h1 => ?_,
      fun h1 h2 h3 h4 => ?_⟩ <;>
    simp_all [Polar.get, Polar.patch, Polar.delete, hj]

/-- C1 witness: concrete evaluations hitting the 200, 404, and 422 arms of
`get`, `delete`, and `patch`. -/
theorem C1_status_taxonomy_witness :
    sampleJoin samplePolar.base_url "checkouts/abc"
        = .ok (Url.joinRel sampleUrl "checkouts/abc")
    ∧ (Polar.get sampleJoin sampleDecodeNat
          (serverRespond { status := 404, body := "nf" })
          samplePolar "checkouts/abc").1 = .returns (.error .NotFound)
    ∧ (Polar.patch sampleJoin sampleEncodeNat sampleDecodeNat
          (serverRespond { status := 422, body := "bad" })
          samplePolar "checkouts/abc" 5).1
        = .returns (.error (.Validation "bad"))
    ∧ (Polar.delete sampleJoin sampleDecodeNat
          (serverRespond { status := 200, body := "7" })
          samplePolar "checkouts/abc").1 = .returns (.ok 7) := by
  refine ⟨rfl, ?_, ?_, ?_⟩
  · exact ((C1_status_taxonomy sampleJoin sampleEncodeNat sampleDecodeNat
      (serverRespond { status := 404, body := "nf" }) samplePolar "checkouts/abc"
      5 (Url.joinRel sampleUrl "checkouts/abc")
      { status := 404, body := "nf" } rfl).1 rfl).2.1 rfl
  · exact ((C1_status_taxonomy sampleJoin sampleEncodeNat sampleDecodeNat
      (serverRespond { status := 422, body := "bad" }) samplePolar "checkouts/abc"
      5 (Url.joinRel sampleUrl "checkouts/abc")
      { status := 422, body := "bad" } rfl).2.1 rfl).2.2.1 rfl
  · exact (((C1_status_taxonomy sampleJoin sampleEncodeNat sampleDecodeNat
      (serverRespond { status := 200, body := "7" }) samplePolar "checkouts/abc"
      5 (Url.joinRel sampleUrl "checkouts/abc")
      { status := 200, body := "7" } rfl).2.2 rfl).1 7 rfl) rfl

/-- C2: for `post`, once the path joins and the server answers with a
response, only a 201 response (with a deserializable body) yields `Ok`;
422 yields `Err(Validation(body))`, 401 yields `Err(Unauthorized)`, and
every other status — 200 and 404 included — yields `Err(Unknown(body))`;
moreover `post` never returns `Err(NotFound)` for any input whatsoever. -/
theorem C2_post_taxonomy (join : Url → String → Except String Url)
    (encode : P → String) (decode : String → Option T)
    (server : Request → ServerOutcome) (self : Polar) (path : String)
    (params : P) (u : Url) (r : HttpResponse)
    (hj : join self.base_url path = .ok u) :
    (server (mkReq .POST u self.access_token (some (encode params)))
        = .response r →
      ((∀ v, r.status = 201 → decode r.body = some v →
          (Polar.post join encode decode server self path params).1
            = .returns (.ok v))
        ∧ (r.status = 422 →
          (Polar.post join encode decode server self path params).1
            = .returns (.error (.Validation r.body)))
        ∧ (r.status = 401 →
          (Polar.post join encode decode server self path params).1
            = .returns (.error .Unauthorized))
        ∧ (r.status = 200 →
          (Polar.post join encode decode server self path params).1
            = .returns (.error (.Unknown r.body)))
        ∧ (r.status = 404 →
          (Polar.post join encode decode server self path params).1
            = .returns (.error (.Unknown r.body)))
        ∧ (r.status ≠ 201 → r.status ≠ 422 → r.status ≠ 401 →
          (Polar.post join encode decode server self path params).1
            = .returns (.error (.Unknown r.body)))))
    ∧ ∀ (join2 : Url → String → Except String Url) (decode2 : String → Option T)
        (server2 : Request → ServerOutcome) (self2 : Polar) (path2 : String)
        (params2 : P),
        (Polar.post join2 encode decode2 server2 self2 path2 params2).1
          ≠ .returns (.error .NotFound) := by
  constructor
  · intro hs
    refine ⟨fun v h1 h2 => ?_, fun h1 => ?_, fun h1 => ?_, fun h1 => ?_,
      fun h1 => ?_, fun h1 h2 h3 => ?_⟩ <;>
      simp_all [Polar.post, hj]
  · intro join2 decode2 server2 self2 path2 params2 h
    unfold Polar.post at h
    split at h
    · simp at h
    · split at h
      · simp at h
      · split at h
        · split at h <;> simp at h
        · split at h
          · simp at h
          · split at h <;> simp at h

/-- C2 witness: concrete evaluations hitting the 201, 200, and 404 arms of
`post`, plus the never-`NotFound` guarantee at a concrete 404 input. -/
theorem C2_post_taxonomy_witness :
    sampleJoin samplePolar.base_url "checkouts"
        = .ok (Url.joinRel sampleUrl "checkouts")
    ∧ (Polar.post sampleJoin sampleEncodeNat sampleDecodeNat
          (serverRespond { status := 201, body := "7" })
          samplePolar "checkouts" 5).1 = .returns (.ok 7)
    ∧ (Polar.post sampleJoin sampleEncodeNat sampleDecodeNat
          (serverRespond { status := 200, body := "ok-but-unexpected" })
          samplePolar "checkouts" 5).1
        = .returns (.error (.Unknown "ok-but-unexpected"))
    ∧ (Polar.post sampleJoin sampleEncodeNat sampleDecodeNat
          (serverRespond { status := 404, body := "nf" })
          samplePolar "checkouts" 5).1 = .returns (.error (.Unknown "nf"))
    ∧ (Polar.post sampleJoin sampleEncodeNat sampleDecodeNat
          (serverRespond { status := 404, body := "nf" })
          samplePolar "checkouts" 5).1 ≠ .returns (.error .NotFound) := by
  refine ⟨rfl, ?_, ?_, ?_, ?_⟩
  · exact (((C2_post_taxonomy sampleJoin sampleEncodeNat sampleDecodeNat
      (serverRespond { status := 201, body := "7" }) samplePolar "checkouts" 5
      (Url.joinRel sampleUrl "checkouts") { status := 201, body := "7" }
      rfl).1 rfl).1 7 rfl) rfl
  · exact ((C2_post_taxonomy sampleJoin sampleEncodeNat sampleDecodeNat
      (serverRespond { status := 200, body := "ok-but-unexpected" }) samplePolar
      "checkouts" 5 (Url.joinRel sampleUrl "checkouts")
      { status := 200, body := "ok-but-unexpected" } rfl).1 rfl).2.2.2.1 rfl
  · exact ((C2_post_taxonomy sampleJoin sampleEncodeNat sampleDecodeNat
      (serverRespond { status := 404, body := "nf" }) samplePolar "checkouts" 5
      (Url.joinRel sampleUrl "checkouts") { status := 404, body := "nf" }
      rfl).1 rfl).2.2.2.2.1 rfl
  · exact (C2_post_taxonomy sampleJoin sampleEncodeNat sampleDecodeNat
      (serverRespond { status := 404, body := "nf" }) samplePolar "checkouts" 5
      (Url.joinRel sampleUrl "checkouts") { status := 404, body := "nf" }
      rfl).2 sampleJoin sampleDecodeNat
      (serverRespond { status := 404, body := "nf" }) samplePolar "checkouts" 5

/-- C3 (counterexample): the claim that every operation handles every
failure by returning a typed `PolarError` and never panics is false: on a
200 response whose body does not deserialize as the requested type,
`Polar::get` evaluates `response.json().await.unwrap()` on a failed
deserialization and panics. -/
theorem C3_counterexample :
    (Polar.get sampleJoin (fun _ => (none : Option Nat))
      (serverRespond { status := 200, body := "not deserializable as T" })
      samplePolar "checkouts/abc").1 = RunResult.panicked := by
  rfl

/-- C3 (amended): every operation returns either `Ok` or a typed
`Err(PolarError)` for every input, server response, and transport error,
except in exactly one situation, where it panics instead: the URL join
succeeded, the server answered with the success status (200 for `get`,
`patch`, `delete`; 201 for `post`), and the response body failed to
deserialize (the `unwrap()` on `response.json()`). -/
theorem C3_no_panic_except_bad_success_body
    (join : Url → String → Except String Url) (encode : P → String)
    (decode : String → Option T) (server : Request → ServerOutcome)
    (self : Polar) (path : String) (params : P) :
    ((Polar.get join decode server self path).1 = RunResult.panicked ↔
      ∃ u, join self.base_url path = .ok u ∧
        ∃ r, server (mkReq .GET u self.access_token none) = .response r ∧
          r.status = 200 ∧ decode r.body = none)
    ∧ ((Polar.delete join decode server self path).1 = RunResult.panicked ↔
      ∃ u, join self.base_url path = .ok u ∧
        ∃ r, server (mkReq .DELETE u self.access_token none) = .response r ∧
          r.status = 200 ∧ decode r.body = none)
    ∧ ((Polar.patch join encode decode server self path params).1
        = RunResult.panicked ↔
      ∃ u, join self.base_url path = .ok u ∧
        ∃ r, server (mkReq .PATCH u self.access_token (some (encode params)))
            = .response r ∧
          r.status = 200 ∧ decode r.body = none)
    ∧ ((Polar.post join encode decode server self path params).1
        = RunResult.panicked ↔
      ∃ u, join self.base_url path = .ok u ∧
        ∃ r, server (mkReq .POST u self.access_token (some (encode params)))
            = .response r ∧
          r.status = 201 ∧ decode r.body = none) := by
  refine ⟨⟨?_, ?_⟩, ⟨?_, ?_⟩, ⟨?_, ?_⟩, ⟨?_, ?_⟩⟩
  · intro h
    unfold Polar.get at h
    split at h
    · simp at h
    · rename_i u hj
      split at h
      · simp at h
      · rename_i r hs
        refine ⟨u, hj, r, hs, ?_⟩
        split at h
        · rename_i h200
          split at h
          · simp at h
          · rename_i hd
            exact ⟨h200, hd⟩
        · split at h
          · simp at h
          · split at h
            · simp at h
            · split at h
              · simp at h
              · simp at h
  · rintro ⟨u, hj, r, hs, h200, hd⟩
    simp [Polar.get, hj, hs, h200, hd]
  · intro h
    unfold Polar.delete at h
    split at h
    · simp at h
    · rename_i u hj
      split at h
      · simp at h
      · rename_i r hs
        refine ⟨u, hj, r, hs, ?_⟩
        split at h
        · rename_i h200
          split at h
          · simp at h
          · rename_i hd
            exact ⟨h200, hd⟩
        · split at h
          · simp at h
          · split at h
            · simp at h
            · split at h
              · simp at h
              · simp at h
  · rintro ⟨u, hj, r, hs, h200, hd⟩
    simp [Polar.delete, hj, hs, h200, hd]
  · intro h
    unfold Polar.patch at h
    split at h
    · simp at h
    · rename_i u hj
      split at h
      · simp at h
      · rename_i r hs
        refine ⟨u, hj, r, hs, ?_⟩
        split at h
        · rename_i h200
          split at h
          · simp at h
          · rename_i hd
            exact ⟨h200, hd⟩
        · split at h
          · simp at h
          · split at h
            · simp at h
            · split at h
              · simp at h
              · simp at h
  · rintro ⟨u, hj, r, hs, h200, hd⟩
    simp [Polar.patch, hj, hs, h200, hd]
  · intro h
    unfold Polar.post at h
    split at h
    · simp at h
    · rename_i u hj
      split at h
      · simp at h
      · rename_i r hs
        refine ⟨u, hj, r, hs, ?_⟩
        split at h
        · rename_i h201
          split at h
          · simp at h
          · rename_i hd
            exact ⟨h201, hd⟩
        · split at h
          · simp at h
          · split at h
            · simp at h
            · simp at h
  · rintro ⟨u, hj, r, hs, h201, hd⟩
    simp [Polar.post, hj, hs, h201, hd]

/-- C3 (amended) witness: at a concrete transport error the operation
returns the typed `Request` error and does not panic, and at a concrete
undecodable 201 body `post` does panic. -/
theorem C3_no_panic_witness :
    (Polar.get sampleJoin sampleDecodeNat (serverFail "connection refused")
        samplePolar "checkouts/abc").1
      = .returns (.error (.Request "connection refused"))
    ∧ (Polar.get sampleJoin sampleDecodeNat (serverFail "connection refused")
        samplePolar "checkouts/abc").1 ≠ RunResult.panicked
    ∧ (Polar.post sampleJoin sampleEncodeNat sampleDecodeNat
        (serverRespond { status := 201, body := "zzz" })
        samplePolar "checkouts" 5).1 = RunResult.panicked := by
  refine ⟨rfl, ?_, ?_⟩
  · intro h
    obtain ⟨u, hju, r, hs, h200, hd⟩ :=
      ((C3_no_panic_except_bad_success_body sampleJoin sampleEncodeNat
        sampleDecodeNat (serverFail "connection refused") samplePolar
        "checkouts/abc" 5).1).mp h
    simp [serverFail] at hs
  · exact ((C3_no_panic_except_bad_success_body sampleJoin sampleEncodeNat
      sampleDecodeNat (serverRespond { status := 201, body := "zzz" })
      samplePolar "checkouts" 5).2.2.2).mpr
      ⟨Url.joinRel sampleUrl "checkouts", rfl,
        { status := 201, body := "zzz" }, rfl, rfl, rfl⟩

/-- C4: for every client built by `Polar::new` with token `tok`, every
request dispatched by `get`, `post`, `patch`, or `delete` carries bearer
authorization with exactly `tok`. -/
theorem C4_bearer_auth (parse : String → Option Url)
    (join : Url → String → Except String Url) (encode : P → String)
    (decode : String → Option T) (server : Request → ServerOutcome)
    (base tok path : String) (params : P) (c : Polar)
    (hnew : Polar.new parse base tok = .ok c) :
    (∀ req ∈ (Polar.get join decode server c path).2,
        req.bearer_auth = some tok)
    ∧ (∀ req ∈ (Polar.post join encode decode server c path params).2,
        req.bearer_auth = some tok)
    ∧ (∀ req ∈ (Polar.patch join encode decode server c path params).2,
        req.bearer_auth = some tok)
    ∧ (∀ req ∈ (Polar.delete join decode server c path).2,
        req.bearer_auth = some tok) := by
  obtain ⟨htok, u0, hp, hacc, hurl⟩ := new_ok_inv parse base tok c hnew
  refine ⟨?_, ?_, ?_, ?_⟩ <;> intro req hreq
  · rw [get_requests_eq] at hreq
    cases hj : join c.base_url path with
    | error e => simp only [hj] at hreq; simp at hreq
    | ok u =>
      simp only [hj, List.mem_singleton] at hreq
      subst hreq
      simp [mkReq, hacc]
  · rw [post_requests_eq] at hreq
    cases hj : join c.base_url path with
    | error e => simp only [hj] at hreq; simp at hreq
    | ok u =>
      simp only [hj, List.mem_singleton] at hreq
      subst hreq
      simp [mkReq, hacc]
  · rw [patch_requests_eq] at hreq
    cases hj : join c.base_url path with
    | error e => simp only [hj] at hreq; simp at hreq
    | ok u =>
      simp only [hj, List.mem_singleton] at hreq
      subst hreq
      simp [mkReq, hacc]
  · rw [delete_requests_eq] at hreq
    cases hj : join c.base_url path with
    | error e => simp only [hj] at hreq; simp at hreq
    | ok u =>
      simp only [hj, List.mem_singleton] at hreq
      subst hreq
      simp [mkReq, hacc]

/-- C4 witness: a concretely constructed client dispatches a single GET
request whose bearer authorization is exactly the token given at
construction. -/
theorem C4_bearer_auth_witness :
    Polar.new sampleParse "https://sandbox-api.polar.sh/v1/" "123"
        = .ok samplePolar
    ∧ (Polar.get sampleJoin sampleDecodeNat
          (serverRespond { status := 404, body := "nf" })
          samplePolar "checkouts/abc").2
        = [mkReq .GET (Url.joinRel sampleUrl "checkouts/abc") "123" none]
    ∧ ∀ req ∈ (Polar.get sampleJoin sampleDecodeNat
          (serverRespond { status := 404, body := "nf" })
          samplePolar "checkouts/abc").2,
        req.bearer_auth = some "123" := by
  have hnew : Polar.new sampleParse "https://sandbox-api.polar.sh/v1/" "123"
      = .ok samplePolar := by rfl
  exact ⟨hnew, rfl,
    (C4_bearer_auth sampleParse sampleJoin sampleEncodeNat sampleDecodeNat
      (serverRespond { status := 404, body := "nf" })
      "https://sandbox-api.polar.sh/v1/" "123" "checkouts/abc" 5 samplePolar
      hnew).1⟩

/-- C5: each endpoint helper returns the corresponding generic method's
result unchanged on its mechanically built path (`checkouts`,
`checkouts/` ++ id, `subscriptions/` ++ id), and when that path joins
against the stored base URL the dispatched request targets exactly the
joined URL with the helper's verb. -/
theorem C5_endpoint_paths (join : Url → String → Except String Url)
    (encode : P → String) (decode : String → Option T)
    (server : Request → ServerOutcome) (self : Polar) (id : String)
    (params : P) :
    Polar.create_checkout_session join encode decode server self params
        = Polar.post join encode decode server self "checkouts" params
    ∧ Polar.get_checkout_session join decode server self id
        = Polar.get join decode server self ("checkouts/" ++ id)
    ∧ Polar.update_subscription join encode decode server self id params
        = Polar.patch join encode decode server self ("subscriptions/" ++ id)
            params
    ∧ Polar.revoke_subscription join decode server self id
        = Polar.delete join decode server self ("subscriptions/" ++ id)
    ∧ (∀ u, join self.base_url "checkouts" = .ok u →
        (Polar.create_checkout_session join encode decode server self params).2
          = [mkReq .POST u self.access_token (some (encode params))])
    ∧ (∀ u, join self.base_url ("checkouts/" ++ id) = .ok u →
        (Polar.get_checkout_session join decode server self id).2
          = [mkReq .GET u self.access_token none])
    ∧ (∀ u, join self.base_url ("subscriptions/" ++ id) = .ok u →
        (Polar.update_subscription join encode decode server self id params).2
          = [mkReq .PATCH u self.access_token (some (encode params))])
    ∧ (∀ u, join self.base_url ("subscriptions/" ++ id) = .ok u →
        (Polar.revoke_subscription join decode server self id).2
          = [mkReq .DELETE u self.access_token none]) := by
  refine ⟨rfl, rfl, rfl, rfl, fun u hj => ?_, fun u hj => ?_, fun u hj => ?_,
    fun u hj => ?_⟩
  · unfold Polar.create_checkout_session
    rw [post_requests_eq]
    simp [hj]
  · unfold Polar.get_checkout_session
    rw [get_requests_eq]
    simp [hj]
  · unfold Polar.update_subscription
    rw [patch_requests_eq]
    simp [hj]
  · unfold Polar.revoke_subscription
    rw [delete_requests_eq]
    simp [hj]

/-- C5 witness: with a concrete id, `get_checkout_session` dispatches one
GET request to the base URL joined with `checkouts/` ++ id, and
`revoke_subscription` one DELETE to `subscriptions/` ++ id. -/
theorem C5_endpoint_paths_witness :
    sampleJoin samplePolar.base_url "checkouts/abc"
        = .ok (Url.joinRel sampleUrl "checkouts/abc")
    ∧ (Polar.get_checkout_session sampleJoin sampleDecodeNat
          (serverRespond { status := 404, body := "nf" }) samplePolar "abc").2
        = [mkReq .GET (Url.joinRel sampleUrl "checkouts/abc") "123" none]
    ∧ (Polar.revoke_subscription sampleJoin sampleDecodeNat
          (serverRespond { status := 404, body := "nf" }) samplePolar "abc").2
        = [mkReq .DELETE (Url.joinRel sampleUrl "subscriptions/abc") "123" none] := by
  refine ⟨rfl, ?_, ?_⟩
  · exact (C5_endpoint_paths sampleJoin sampleEncodeNat sampleDecodeNat
      (serverRespond { status := 404, body := "nf" }) samplePolar "abc"
      5).2.2.2.2.2.1 (Url.joinRel sampleUrl "checkouts/abc") rfl
  · exact (C5_endpoint_paths sampleJoin sampleEncodeNat sampleDecodeNat
      (serverRespond { status := 404, body := "nf" }) samplePolar "abc"
      5).2.2.2.2.2.2.2 (Url.joinRel sampleUrl "subscriptions/abc") rfl

/-- C6: every call to a generic request method dispatches at most one HTTP
request, and exactly one whenever the path joins against the base URL —
independent of the response status or any transport error: there is never a
retry or follow-up request. -/
theorem C6_single_round_trip (join : Url → String → Except String Url)
    (encode : P → String) (decode : String → Option T)
    (server : Request → ServerOutcome) (self : Polar) (path : String)
    (params : P) :
    ((Polar.get join decode server self path).2.length ≤ 1
      ∧ (Polar.post join encode decode server self path params).2.length ≤ 1
      ∧ (Polar.patch join encode decode server self path params).2.length ≤ 1
      ∧ (Polar.delete join decode server self path).2.length ≤ 1)
    ∧ ∀ u, join self.base_url path = .ok u →
        ((Polar.get join decode server self path).2.length = 1
          ∧ (Polar.post join encode decode server self path params).2.length = 1
          ∧ (Polar.patch join encode decode server self path params).2.length = 1
          ∧ (Polar.delete join decode server self path).2.length = 1) := by
  constructor
  · refine ⟨?_, ?_, ?_, ?_⟩
    · rw [get_requests_eq]; split <;> simp
    · rw [post_requests_eq]; split <;> simp
    · rw [patch_requests_eq]; split <;> simp
    · rw [delete_requests_eq]; split <;> simp
  · intro u hj
    refine ⟨?_, ?_, ?_, ?_⟩
    · rw [get_requests_eq]; simp [hj]
    · rw [post_requests_eq]; simp [hj]
    · rw [patch_requests_eq]; simp [hj]
    · rw [delete_requests_eq]; simp [hj]

/-- C6 witness: at a concrete joinable path, each of the four methods
dispatches exactly one request, both for an error response and for a
transport failure. -/
theorem C6_single_round_trip_witness :
    sampleJoin samplePolar.base_url "checkouts/abc"
        = .ok (Url.joinRel sampleUrl "checkouts/abc")
    ∧ ((Polar.get sampleJoin sampleDecodeNat
          (serverRespond { status := 404, body := "nf" })
          samplePolar "checkouts/abc").2.length = 1
      ∧ (Polar.post sampleJoin sampleEncodeNat sampleDecodeNat
          (serverRespond { status := 404, body := "nf" })
          samplePolar "checkouts/abc" 5).2.length = 1
      ∧ (Polar.patch sampleJoin sampleEncodeNat sampleDecodeNat
          (serverRespond { status := 404, body := "nf" })
          samplePolar "checkouts/abc" 5).2.length = 1
      ∧ (Polar.delete sampleJoin sampleDecodeNat
          (serverRespond { status := 404, body := "nf" })
          samplePolar "checkouts/abc").2.length = 1)
    ∧ (Polar.get sampleJoin sampleDecodeNat (serverFail "timed out")
          samplePolar "checkouts/abc").2.length = 1 := by
  refine ⟨rfl, ?_, ?_⟩
  · exact (C6_single_round_trip sampleJoin sampleEncodeNat sampleDecodeNat
      (serverRespond { status := 404, body := "nf" }) samplePolar
      "checkouts/abc" 5).2 (Url.joinRel sampleUrl "checkouts/abc") rfl
  · exact ((C6_single_round_trip sampleJoin sampleEncodeNat sampleDecodeNat
      (serverFail "timed out") samplePolar "checkouts/abc" 5).2
      (Url.joinRel sampleUrl "checkouts/abc") rfl).1
